import Mathlib

/-!
Verification of the cloud-fetch pipeline (src/fetch.py): a shallow embedding
of the measurement extractor, the two paginating API clients, the pipeline
orchestrator and the top-level error guard, together with theorems settling
the specified properties.

Python numbers are modelled as rationals, Python dictionaries with optional
keys as structures with Option fields, raised exceptions as Except errors,
and the unbounded while loop of the fetchers as a fuel-indexed loop (the
result is none exactly when the loop exceeds the fuel bound).
-/

/-- Ohmic value of the load resistor (constant LOAD_RESISTOR in fetch.py). -/
def LOAD_RESISTOR : ℚ := 39

/-- Model of Python round-half-to-even on a rational, to the nearest integer. -/
def round_half_even (x : ℚ) : ℤ :=
  let n : ℤ := ⌊x⌋
  let frac : ℚ := x - (n : ℚ)
  if frac < 1/2 then n
  else if 1/2 < frac then n + 1
  else if n % 2 = 0 then n
  else n + 1

/-- Model of Python round(x, ndigits): banker rounding at the given number
of decimal digits. -/
def pyround (x : ℚ) (ndigits : ℕ) : ℚ :=
  (round_half_even (x * (10 : ℚ) ^ ndigits) : ℚ) / (10 : ℚ) ^ ndigits

/-- Model of the external call chain pendulum.parse, in_timezone of
Europe/Prague, to_datetime_string used on message created_at: accepts a
string with an ISO-8601 date-time prefix YYYY-MM-DDTHH:MM:SS and yields a
date-time string, none models a raised parser error. The time-zone
conversion itself is abstracted away, as no verified property depends on
the value of the resulting date string. -/
def pendulum_parse_prague (s : String) : Option String :=
  match s.toList with
  | y1 :: y2 :: y3 :: y4 :: '-' :: m1 :: m2 :: '-' :: d1 :: d2 :: 'T' ::
      h1 :: h2 :: ':' :: n1 :: n2 :: ':' :: s1 :: s2 :: _ =>
    if ([y1, y2, y3, y4, m1, m2, d1, d2, h1, h2, n1, n2, s1, s2].all Char.isDigit) then
      some (String.mk [y1, y2, y3, y4, '-', m1, m2, '-', d1, d2, ' ',
        h1, h2, ':', n1, n2, ':', s1, s2])
    else none
  | _ => none

/-- Python exceptions that extract_measurement can raise. -/
inductive PyErr where
  | keyError (key : String)
  | parseError
deriving DecidableEq

/-- The battery object nested in message data; both voltages are optional
keys (and a JSON null is likewise modelled as none). -/
structure Battery where
  voltage1 : Option ℚ
  voltage2 : Option ℚ
deriving DecidableEq

/-- The thermometer object; its temperature key is optional. -/
structure Thermometer where
  temperature : Option ℚ
deriving DecidableEq

/-- The hygrometer object; its temperature key is optional. -/
structure Hygrometer where
  temperature : Option ℚ
deriving DecidableEq

/-- The sensor object with optional thermometer and hygrometer children. -/
structure Sensor where
  thermometer : Option Thermometer
  hygrometer : Option Hygrometer
deriving DecidableEq

/-- The data object of a message, with optional battery and sensor keys. -/
structure MsgData where
  battery : Option Battery
  sensor : Option Sensor
deriving DecidableEq

/-- A raw message as returned by the messages endpoint; every key a Python
dict access could miss is optional. -/
structure Message where
  label : Option String
  created_at : Option String
  data : Option MsgData
deriving DecidableEq

/-- The derived measurement record built by extract_measurement. -/
structure Measurement where
  label : String
  date : String
  t1 : Option ℚ
  t2 : Option ℚ
  v1 : ℚ
  v2 : ℚ
  r : ℚ
deriving DecidableEq

/-- Python truthiness of an optional number: none and 0 are falsy. -/
def truthy : Option ℚ → Bool
  | none => false
  | some x => x != 0

/-- Shallow embedding of extract_measurement from fetch.py. Dictionary
accesses with brackets raise keyError when the key is missing; .get chains
yield none instead. The result is ok none when the function returns None,
ok (some m) when it returns a record, and error e when it raises. -/
def extract_measurement (message : Message) : Except PyErr (Option Measurement) :=
  match message.data with
  | none => Except.error (PyErr.keyError "data")
  | some data =>
    if data.battery.isNone then Except.ok none
    else
      match message.created_at with
      | none => Except.error (PyErr.keyError "created_at")
      | some created =>
        match pendulum_parse_prague created with
        | none => Except.error PyErr.parseError
        | some date =>
          let battery := data.battery.getD { voltage1 := none, voltage2 := none }
          let v1 := battery.voltage1
          let v2 := battery.voltage2
          let t1 := (data.sensor.bind Sensor.thermometer).bind Thermometer.temperature
          let t2 := (data.sensor.bind Sensor.hygrometer).bind Hygrometer.temperature
          if truthy v1 && truthy v2 then
            match message.label with
            | none => Except.error (PyErr.keyError "label")
            | some label =>
              Except.ok (some {
                label := label
                date := date
                t1 := t1.map (fun x => pyround x 1)
                t2 := t2.map (fun x => pyround x 1)
                v1 := pyround (v1.getD 0) 2
                v2 := pyround (v2.getD 0) 2
                r := pyround (LOAD_RESISTOR * (v1.getD 0 - v2.getD 0) / v2.getD 0) 2 })
          else Except.ok none

example : pyround (39/10) 2 = 39/10 := by with_unfolding_all rfl

example : pyround (1/8) 2 = 12/100 := by with_unfolding_all rfl

example : pendulum_parse_prague "2024-01-02T03:04:05Z" = some "2024-01-02 03:04:05" := by decide

example : pendulum_parse_prague "garbage" = none := by decide

example :
    extract_measurement {
      label := some "m1", created_at := some "2024-01-02T03:04:05Z",
      data := some {
        battery := some { voltage1 := some (33/10), voltage2 := some 3 },
        sensor := some { thermometer := some { temperature := some (2127/100) },
                         hygrometer := none } } } =
    Except.ok (some {
      label := "m1", date := "2024-01-02 03:04:05",
      t1 := some (213/10), t2 := none, v1 := 33/10, v2 := 3, r := 39/10 }) := by
  with_unfolding_all rfl

/-! ## The HTTP layer and the two paginating fetchers -/

/-- The exception raised by both private get methods on a non-200 status. -/
inductive FetchException where
  | mk
deriving DecidableEq

/-- An HTTP GET request as assembled by the two fetchers: the endpoint URL,
the query parameters each fetcher fills in, and the authorization header. -/
structure HttpRequest where
  url : String
  group_id : Option String
  device_id : Option String
  limit : ℕ
  offset : ℕ
  bearer : String
deriving DecidableEq

/-- An HTTP response: a status code and the JSON-decoded array body. -/
structure HttpResp (α : Type) where
  status : ℕ
  body : List α

/-- The remote REST API, modelled as a function from requests to responses. -/
def HttpServer (α : Type) : Type := HttpRequest → HttpResp α

/-- Endpoint URL for the device list. -/
def devices_url : String := "https://api.hardwario.cloud/v1/devices"

/-- Endpoint URL for the message list. -/
def messages_url : String := "https://api.hardwario.cloud/v1/messages"

/-- Fetcher for the device list of a group (class DeviceFetcher). -/
structure DeviceFetcher where
  group_id : String
  api_token : String
deriving DecidableEq

/-- The request assembled by DeviceFetcher._get: group_id, limit and offset
as query parameters and a bearer authorization header. -/
def DeviceFetcher.mkRequest (f : DeviceFetcher) (limit offset : ℕ) : HttpRequest :=
  { url := devices_url
    group_id := some f.group_id
    device_id := none
    limit := limit
    offset := offset
    bearer := "Bearer " ++ f.api_token }

/-- The while-True loop of DeviceFetcher.fetch, indexed by fuel. Arguments
after the server are fuel, offset, records and the trace of requests issued
so far; none means the loop was cut off by the fuel bound, otherwise the
result carries the outcome (records on success, the FetchException raised
by _get on a non-200 status) and the full request trace. -/
def DeviceFetcher.fetchLoop {α : Type} (f : DeviceFetcher) (server : HttpServer α) :
    ℕ → ℕ → List α → List HttpRequest →
    Option (Except FetchException (List α) × List HttpRequest)
  | 0, _, _, _ => none
  | fuel + 1, offset, records, reqs =>
    let limit := 100
    let req := f.mkRequest limit offset
    let r := server req
    let reqs2 := reqs ++ [req]
    if r.status ≠ 200 then
      some (Except.error FetchException.mk, reqs2)
    else
      let data := r.body
      let count := data.length
      let records2 := records ++ data
      let offset2 := offset + count
      if count = 0 ∨ count < limit then
        some (Except.ok records2, reqs2)
      else
        f.fetchLoop server fuel offset2 records2 reqs2

/-- DeviceFetcher.fetch: run the pagination loop from offset 0 with no
records accumulated. -/
def DeviceFetcher.fetch {α : Type} (f : DeviceFetcher) (server : HttpServer α)
    (fuel : ℕ) : Option (Except FetchException (List α) × List HttpRequest) :=
  f.fetchLoop server fuel 0 [] []

/-- Fetcher for the message list of a device (class MessageFetcher). -/
structure MessageFetcher where
  group_id : String
  device_id : String
  api_token : String
deriving DecidableEq

/-- The request assembled by MessageFetcher._get: group_id, device_id, limit
and offset as query parameters and a bearer authorization header. -/
def MessageFetcher.mkRequest (f : MessageFetcher) (limit offset : ℕ) : HttpRequest :=
  { url := messages_url
    group_id := some f.group_id
    device_id := some f.device_id
    limit := limit
    offset := offset
    bearer := "Bearer " ++ f.api_token }

/-- The while-True loop of MessageFetcher.fetch: a textual duplicate of the
loop body of DeviceFetcher.fetch, as in the source. -/
def MessageFetcher.fetchLoop {α : Type} (f : MessageFetcher) (server : HttpServer α) :
    ℕ → ℕ → List α → List HttpRequest →
    Option (Except FetchException (List α) × List HttpRequest)
  | 0, _, _, _ => none
  | fuel + 1, offset, records, reqs =>
    let limit := 100
    let req := f.mkRequest limit offset
    let r := server req
    let reqs2 := reqs ++ [req]
    if r.status ≠ 200 then
      some (Except.error FetchException.mk, reqs2)
    else
      let data := r.body
      let count := data.length
      let records2 := records ++ data
      let offset2 := offset + count
      if count = 0 ∨ count < limit then
        some (Except.ok records2, reqs2)
      else
        f.fetchLoop server fuel offset2 records2 reqs2

/-- MessageFetcher.fetch: run the pagination loop from offset 0 with no
records accumulated. -/
def MessageFetcher.fetch {α : Type} (f : MessageFetcher) (server : HttpServer α)
    (fuel : ℕ) : Option (Except FetchException (List α) × List HttpRequest) :=
  f.fetchLoop server fuel 0 [] []

/-! ## The orchestrator (function main) and the top-level guard -/

/-- A device record as returned by the devices endpoint; main reads the id,
name, group_id and api_token keys of each record. -/
structure Device where
  id : String
  name : String
  group_id : String
  api_token : String
deriving DecidableEq

/-- Python string slicing s[:n] (by code points). -/
def pyslice (s : String) (n : ℕ) : String := String.mk (s.toList.take n)

/-- One output sheet: a worksheet name and its rows of measurements. -/
structure Sheet where
  name : String
  rows : List Measurement
deriving DecidableEq

/-- An error that aborts a run of main: the FetchException raised by a
fetcher, or a Python exception escaping extract_measurement. -/
inductive RunErr where
  | fetch
  | py (e : PyErr)
deriving DecidableEq

/-- The inner message loop of main: feed each message to extract_measurement
in order, keep the non-None results in order, and propagate the first
raised exception. -/
def extractAll : List Message → Except PyErr (List Measurement)
  | [] => Except.ok []
  | m :: ms =>
    match extract_measurement m with
    | Except.error e => Except.error e
    | Except.ok none => extractAll ms
    | Except.ok (some meas) =>
      match extractAll ms with
      | Except.error e => Except.error e
      | Except.ok rest => Except.ok (meas :: rest)

/-- The device loop of main: for each device, in order, build a
MessageFetcher from the group_id, id and api_token of that device record,
fetch its messages and extract the measurements, producing one sheet per
device named by the device id sliced to 30 characters. The result also
carries the trace of message requests issued, on the error path as well. -/
def buildSheets (mserver : HttpServer Message) (fuel : ℕ) :
    List Device →
    Option (Except (RunErr × List HttpRequest) (List Sheet × List HttpRequest))
  | [] => some (Except.ok ([], []))
  | d :: ds =>
    match MessageFetcher.fetch
        { group_id := d.group_id, device_id := d.id, api_token := d.api_token }
        mserver fuel with
    | none => none
    | some (Except.error _, tr) => some (Except.error (RunErr.fetch, tr))
    | some (Except.ok msgs, tr) =>
      match extractAll msgs with
      | Except.error e => some (Except.error (RunErr.py e, tr))
      | Except.ok meas =>
        match buildSheets mserver fuel ds with
        | none => none
        | some (Except.error (e, tr2)) => some (Except.error (e, tr ++ tr2))
        | some (Except.ok (sheets, tr2)) =>
          some (Except.ok ({ name := pyslice d.id 30, rows := meas } :: sheets, tr ++ tr2))

/-- Observable outcome of one invocation of main: the sheets written to the
XLSX file (none when no file is written), whether the writer ran, every
HTTP request issued, and the exception escaping main, if any. -/
structure RunOutcome where
  output_file : Option (List Sheet)
  writer_invoked : Bool
  requests : List HttpRequest
  err : Option RunErr
deriving DecidableEq

/-- Shallow embedding of main from fetch.py: fetch the devices of the group
with the command-line group_id and api_token, build the per-device sheets,
and only at the very end write all sheets to the output file. An exception
in either phase aborts the run before the writer is invoked. -/
def main_run (dserver : HttpServer Device) (mserver : HttpServer Message)
    (group_id api_token : String) (fuel : ℕ) : Option RunOutcome :=
  match DeviceFetcher.fetch { group_id := group_id, api_token := api_token }
      dserver fuel with
  | none => none
  | some (Except.error _, dtr) =>
    some { output_file := none, writer_invoked := false, requests := dtr,
           err := some RunErr.fetch }
  | some (Except.ok devices, dtr) =>
    match buildSheets mserver fuel devices with
    | none => none
    | some (Except.error (e, mtr)) =>
      some { output_file := none, writer_invoked := false, requests := dtr ++ mtr,
             err := some e }
    | some (Except.ok (sheets, mtr)) =>
      some { output_file := some sheets, writer_invoked := true,
             requests := dtr ++ mtr, err := none }

/-- What one process invocation shows the outside world: the lines printed
to standard error and the process exit status. -/
structure ProcessOutcome where
  stderr_lines : List String
  exit_code : ℕ
deriving DecidableEq

/-- The fixed message printed when a FetchException reaches the top level. -/
def failure_message : String := "Request to REST API failed. Please, check your parameters!"

/-- Marker for the interpreter traceback printed for an uncaught exception. -/
def uncaught_traceback : String := "Traceback (most recent call last):"

/-- Model of the if __name__ guard of fetch.py together with the exit
behaviour of the click framework and the Python interpreter: a successful
command exits 0; a FetchException is caught, the fixed message is printed
to standard error and the script then falls off the end, so the process
still exits 0; any other exception is uncaught, so the interpreter prints
a traceback and exits 1. -/
def main_guard (o : RunOutcome) : ProcessOutcome :=
  match o.err with
  | none => { stderr_lines := [], exit_code := 0 }
  | some RunErr.fetch => { stderr_lines := [failure_message], exit_code := 0 }
  | some (RunErr.py _) => { stderr_lines := [uncaught_traceback], exit_code := 1 }

/-- A whole process run: main followed by the top-level guard. -/
def processRun (dserver : HttpServer Device) (mserver : HttpServer Message)
    (group_id api_token : String) (fuel : ℕ) : Option ProcessOutcome :=
  (main_run dserver mserver group_id api_token fuel).map main_guard

/-- The limit and offset of a request: the pagination-relevant part. -/
def reqPage (r : HttpRequest) : ℕ × ℕ := (r.limit, r.offset)

/-- The request trace of a buildSheets result, on both paths. -/
def exTrace :
    Except (RunErr × List HttpRequest) (List Sheet × List HttpRequest) →
    List HttpRequest
  | Except.error (_, tr) => tr
  | Except.ok (_, tr) => tr

/-! ## Claims about the measurement extractor -/

/-- C1: for every message whose data contains a battery object with both
voltage1 and voltage2 present and truthy (non-zero, non-null),
extract_measurement returns a record in which v1 and v2 are the voltages
rounded to exactly 2 decimal places, t1 and t2 are the nested sensor
temperatures rounded to exactly 1 decimal place when present and null when
absent at any level, and r equals round(39 * (v1 - v2) / v2, 2) exactly,
computed from the raw voltage values of the message. The hypotheses on
label and created_at state that the message is well formed per the data
model (label present, created_at a parseable timestamp string). -/
theorem C1_extract_valid_record (m : Message) (data : MsgData) (battery : Battery)
    (lab created date : String) (x1 x2 : ℚ)
    (hdata : m.data = some data) (hbat : data.battery = some battery)
    (hlab : m.label = some lab) (hca : m.created_at = some created)
    (hdate : pendulum_parse_prague created = some date)
    (hv1 : battery.voltage1 = some x1) (hv2 : battery.voltage2 = some x2)
    (hx1 : x1 ≠ 0) (hx2 : x2 ≠ 0) :
    extract_measurement m = Except.ok (some {
      label := lab
      date := date
      t1 := ((data.sensor.bind Sensor.thermometer).bind
        Thermometer.temperature).map (fun t => pyround t 1)
      t2 := ((data.sensor.bind Sensor.hygrometer).bind
        Hygrometer.temperature).map (fun t => pyround t 1)
      v1 := pyround x1 2
      v2 := pyround x2 2
      r := pyround (LOAD_RESISTOR * (x1 - x2) / x2) 2 }) := by
  simp [extract_measurement, hdata, hbat, hca, hdate, hv1, hv2, hlab, truthy,
    hx1, hx2]

/-- Concrete battery for the C1 witness. -/
def c1_battery : Battery := { voltage1 := some (33/10), voltage2 := some 3 }

/-- Concrete data object for the C1 witness: thermometer temperature present,
hygrometer absent. -/
def c1_data : MsgData :=
  { battery := some c1_battery
    sensor := some { thermometer := some { temperature := some (2127/100) }
                     hygrometer := none } }

/-- Concrete message for the C1 witness. -/
def c1_msg : Message :=
  { label := some "m1", created_at := some "2024-01-02T03:04:05Z",
    data := some c1_data }

/-- Witness for C1: on a concrete message with voltages 3.3 and 3 and a
thermometer temperature 21.27, the extractor yields v1 = 3.3, v2 = 3,
t1 = 21.3, t2 = null and r = round(39 * 0.3 / 3, 2) = 3.9. -/
theorem C1_extract_valid_record_witness :
    extract_measurement c1_msg = Except.ok (some {
      label := "m1", date := "2024-01-02 03:04:05",
      t1 := some (213/10), t2 := none, v1 := 33/10, v2 := 3, r := 39/10 }) := by
  have h := C1_extract_valid_record c1_msg c1_data c1_battery
    "m1" "2024-01-02T03:04:05Z" "2024-01-02 03:04:05" (33/10) 3
    rfl rfl rfl rfl (by decide) rfl rfl (by norm_num) (by norm_num)
  rw [h]
  with_unfolding_all rfl

/-- C2 counterexample: a message whose battery is present but has both
voltages missing, with an unparseable created_at, makes extract_measurement
raise (a pendulum parser error) instead of returning absent, refuting the
never-raises part of the claim. -/
theorem C2_counterexample :
    extract_measurement {
      label := some "m", created_at := some "not-a-timestamp",
      data := some { battery := some { voltage1 := none, voltage2 := none },
                     sensor := none } }
      = Except.error PyErr.parseError := by
  with_unfolding_all rfl

/-- C2 (amended): for every message whose data is present and lacks a
battery field, extract_measurement returns absent without raising; and for
every message whose battery is present with voltage1 or voltage2 missing,
zero, or null, extract_measurement returns absent without raising provided
its created_at parses (with an unparseable created_at it raises instead,
and with the data key missing it raises a KeyError). -/
theorem C2_amended_fails_closed (m : Message) (data : MsgData)
    (hdata : m.data = some data) :
    (data.battery = none → extract_measurement m = Except.ok none) ∧
    (∀ battery created date, data.battery = some battery →
      m.created_at = some created → pendulum_parse_prague created = some date →
      (truthy battery.voltage1 = false ∨ truthy battery.voltage2 = false) →
      extract_measurement m = Except.ok none) := by
  constructor
  · intro hb
    simp [extract_measurement, hdata, hb]
  · intro battery created date hb hca hdate hfalsy
    have hcond : (truthy battery.voltage1 && truthy battery.voltage2) = false := by
      rcases hfalsy with h | h <;> simp [h]
    simp [extract_measurement, hdata, hb, hca, hdate, hcond]

/-- Witness for the amended C2: a concrete message with data but no battery
yields absent, and a concrete message with battery present, voltage1 zero
and voltage2 present, with a parseable created_at, yields absent. -/
theorem C2_amended_fails_closed_witness :
    extract_measurement {
      label := some "w1", created_at := none,
      data := some { battery := none, sensor := none } } = Except.ok none ∧
    extract_measurement {
      label := some "w2",
      created_at := some "2024-01-05T08:09:10Z",
      data := some { battery := some { voltage1 := some 0, voltage2 := some (3/2) },
                     sensor := none } } = Except.ok none := by
  constructor
  · exact (C2_amended_fails_closed _ _ rfl).1 rfl
  · exact (C2_amended_fails_closed _ _ rfl).2 _ "2024-01-05T08:09:10Z"
      "2024-01-05 08:09:10" rfl rfl (by decide)
      (Or.inl (by with_unfolding_all rfl))

/-- C10: extract_measurement is not total at its public interface: it raises
a KeyError when the message lacks the data key entirely, and, because it
parses created_at before checking the voltages, a message whose battery is
present but whose voltages are missing raises on an unparseable created_at
even though the same message with a parseable created_at yields absent. -/
theorem C10_extract_partial :
    extract_measurement {
      label := some "x",
      created_at := some "2024-01-02T03:04:05Z", data := none }
      = Except.error (PyErr.keyError "data") ∧
    extract_measurement {
      label := some "x", created_at := some "not a timestamp",
      data := some { battery := some { voltage1 := none, voltage2 := none },
                     sensor := none } }
      = Except.error PyErr.parseError ∧
    extract_measurement {
      label := some "x",
      created_at := some "2024-01-03T03:04:05Z",
      data := some { battery := some { voltage1 := none, voltage2 := none },
                     sensor := none } }
      = Except.ok none := by
  refine ⟨rfl, by with_unfolding_all rfl, by with_unfolding_all rfl⟩

/-! ## Claims about the paginating fetchers -/

/-- Concrete fetcher used by the C3 pagination scenarios. -/
def c3_fetcher : DeviceFetcher := { group_id := "group-1", api_token := "token-1" }

/-- Mock endpoint with 237 records served by limit and offset, so the loop
sees pages of sizes 100, 100 and 37. -/
def c3_server : HttpServer ℕ := fun req =>
  { status := 200, body := ((List.range 237).drop req.offset).take req.limit }

/-- Mock endpoint whose first page is empty. -/
def c3_empty_server : HttpServer ℕ := fun _ => { status := 200, body := [] }

set_option maxRecDepth 100000

/-- C3: the paginated fetcher accumulates page results in request order and
stops exactly when a page returns zero items or fewer items than the
requested limit of 100: against a mock endpoint serving pages of sizes
100, 100 and 37 it returns exactly the 237 records in original order after
exactly three requests (limit 100, offsets 0, 100, 200), and against a
mock endpoint whose first page is empty it returns no records after
exactly one request. -/
theorem C3_pagination :
    DeviceFetcher.fetch c3_fetcher c3_server 10 =
      some (Except.ok (List.range 237),
        [c3_fetcher.mkRequest 100 0, c3_fetcher.mkRequest 100 100,
         c3_fetcher.mkRequest 100 200]) ∧
    DeviceFetcher.fetch c3_fetcher c3_empty_server 10 =
      some (Except.ok [], [c3_fetcher.mkRequest 100 0]) := by
  exact ⟨rfl, rfl⟩

/-- C4: a non-200 status on the next page request makes either fetch loop
abort at once with the FetchException signal and no partial records (only
the request trace is reported), and a run of main that ends in any error
never invokes the writer and writes no output file. -/
theorem C4_fetch_failure_aborts :
    (∀ (α : Type) (f : DeviceFetcher) (server : HttpServer α)
        (fuel offset : ℕ) (records : List α) (reqs : List HttpRequest),
        (server (f.mkRequest 100 offset)).status ≠ 200 →
        f.fetchLoop server (fuel + 1) offset records reqs =
          some (Except.error FetchException.mk, reqs ++ [f.mkRequest 100 offset])) ∧
    (∀ (α : Type) (f : MessageFetcher) (server : HttpServer α)
        (fuel offset : ℕ) (records : List α) (reqs : List HttpRequest),
        (server (f.mkRequest 100 offset)).status ≠ 200 →
        f.fetchLoop server (fuel + 1) offset records reqs =
          some (Except.error FetchException.mk, reqs ++ [f.mkRequest 100 offset])) ∧
    (∀ (dserver : HttpServer Device) (mserver : HttpServer Message)
        (gid token : String) (fuel : ℕ) (o : RunOutcome),
        main_run dserver mserver gid token fuel = some o → o.err.isSome = true →
        o.writer_invoked = false ∧ o.output_file = none) := by
  refine ⟨?_, ?_, ?_⟩
  · intro α f server fuel offset records reqs h
    simp [DeviceFetcher.fetchLoop, h]
  · intro α f server fuel offset records reqs h
    simp [MessageFetcher.fetchLoop, h]
  · intro dserver mserver gid token fuel o h hs
    unfold main_run at h
    split at h
    · exact absurd h (by simp)
    · simp only [Option.some.injEq] at h
      subst h
      exact ⟨rfl, rfl⟩
    · split at h
      · exact absurd h (by simp)
      · simp only [Option.some.injEq] at h
        subst h
        exact ⟨rfl, rfl⟩
      · simp only [Option.some.injEq] at h
        subst h
        simp at hs

/-- Mock device endpoint that always answers HTTP 500. -/
def c4_server500 : HttpServer Device := fun _ => { status := 500, body := [] }

/-- Mock message endpoint that always answers an empty page. -/
def c4_mserver : HttpServer Message := fun _ => { status := 200, body := [] }

/-- The outcome of main against the HTTP-500 device endpoint. -/
def c4_outcome : RunOutcome :=
  { output_file := none, writer_invoked := false,
    requests := [DeviceFetcher.mkRequest { group_id := "g", api_token := "t" } 100 0],
    err := some RunErr.fetch }

/-- Witness for C4: against the HTTP-500 device endpoint the loop aborts on
its first request with the FetchException signal and no records, and the
corresponding run of main reports no writer invocation and no output file. -/
theorem C4_fetch_failure_aborts_witness :
    DeviceFetcher.fetchLoop { group_id := "g", api_token := "t" } c4_server500 1 0
        ([] : List Device) [] =
      some (Except.error FetchException.mk,
        [DeviceFetcher.mkRequest { group_id := "g", api_token := "t" } 100 0]) ∧
    c4_outcome.writer_invoked = false ∧ c4_outcome.output_file = none := by
  constructor
  · have h := C4_fetch_failure_aborts.1 Device { group_id := "g", api_token := "t" }
      c4_server500 0 0 [] [] (by decide)
    simpa using h
  · exact C4_fetch_failure_aborts.2.2 c4_server500 c4_mserver "g" "t" 1 c4_outcome
      rfl rfl

/-- Helper for C8: run against pointwise-identical page responses and traces
with identical limit-offset progressions, the two textually duplicated
pagination loops agree on the outcome and on the limit-offset progression
of the requests they issue. -/
theorem fetch_loops_agree {α : Type} (df : DeviceFetcher) (mf : MessageFetcher)
    (dserver mserver : HttpServer α)
    (hresp : ∀ limit offset, dserver (df.mkRequest limit offset) =
      mserver (mf.mkRequest limit offset)) :
    ∀ (fuel offset : ℕ) (records : List α) (trD trM : List HttpRequest),
      trD.map reqPage = trM.map reqPage →
      (df.fetchLoop dserver fuel offset records trD).map
          (fun p => (p.1, p.2.map reqPage)) =
      (mf.fetchLoop mserver fuel offset records trM).map
          (fun p => (p.1, p.2.map reqPage)) := by
  intro fuel
  induction fuel with
  | zero =>
    intro offset records trD trM htr
    rfl
  | succ n ih =>
    intro offset records trD trM htr
    have hpage : reqPage (df.mkRequest 100 offset) = reqPage (mf.mkRequest 100 offset) := by
      simp [reqPage, DeviceFetcher.mkRequest, MessageFetcher.mkRequest]
    have htr2 : (trD ++ [df.mkRequest 100 offset]).map reqPage =
        (trM ++ [mf.mkRequest 100 offset]).map reqPage := by
      simp [htr, hpage]
    simp only [DeviceFetcher.fetchLoop, MessageFetcher.fetchLoop]
    rw [← hresp 100 offset]
    split_ifs with hs hc
    · simp [htr2]
    · simp [htr2]
    · exact ih _ _ _ _ htr2

/-- C8: DeviceFetcher.fetch and MessageFetcher.fetch implement the same
pagination function: given the same sequence of page responses from their
respective endpoints, the two fetch loops return identical outcomes
(identical record sequences on success, the same failure signal otherwise)
and issue requests with identical limit-offset progressions. -/
theorem C8_same_pagination {α : Type} (df : DeviceFetcher) (mf : MessageFetcher)
    (dserver mserver : HttpServer α)
    (hresp : ∀ limit offset, dserver (df.mkRequest limit offset) =
      mserver (mf.mkRequest limit offset)) (fuel : ℕ) :
    (df.fetch dserver fuel).map (fun p => (p.1, p.2.map reqPage)) =
    (mf.fetch mserver fuel).map (fun p => (p.1, p.2.map reqPage)) :=
  fetch_loops_agree df mf dserver mserver hresp fuel 0 [] [] [] rfl

/-- Mock endpoint for the C8 witness: one page of three records at offset 0. -/
def c8_server : HttpServer ℕ := fun req =>
  { status := 200, body := if req.offset = 0 then [7, 8, 9] else [] }

/-- Witness for C8: against the same concrete endpoint behaviour, the two
fetchers produce the same records [7, 8, 9] with the same single request
at limit 100, offset 0. -/
theorem C8_same_pagination_witness :
    (DeviceFetcher.fetch { group_id := "g", api_token := "t" } c8_server 4).map
        (fun p => (p.1, p.2.map reqPage)) =
    (MessageFetcher.fetch { group_id := "g", device_id := "d", api_token := "t" }
        c8_server 4).map (fun p => (p.1, p.2.map reqPage)) ∧
    (MessageFetcher.fetch { group_id := "g", device_id := "d", api_token := "t" }
        c8_server 4).map (fun p => (p.1, p.2.map reqPage)) =
      some (Except.ok [7, 8, 9], [(100, 0)]) := by
  constructor
  · exact C8_same_pagination _ _ c8_server c8_server (fun _ _ => rfl) 4
  · rfl

/-- Helper: every request the DeviceFetcher pagination loop reports beyond
its initial trace is one the fetcher assembled itself, at limit 100. -/
theorem dev_fetchLoop_trace {α : Type} (f : DeviceFetcher)
    (server : HttpServer α) :
    ∀ (fuel offset : ℕ) (records : List α) (reqs : List HttpRequest)
      (res : Except FetchException (List α)) (tr : List HttpRequest),
      f.fetchLoop server fuel offset records reqs = some (res, tr) →
      ∀ r ∈ tr, r ∈ reqs ∨ ∃ off, r = f.mkRequest 100 off := by
  intro fuel
  induction fuel with
  | zero =>
    intro offset records reqs res tr h
    exact absurd h (by simp [DeviceFetcher.fetchLoop])
  | succ n ih =>
    intro offset records reqs res tr h r hr
    simp only [DeviceFetcher.fetchLoop] at h
    split_ifs at h with hs hc
    · simp only [Option.some.injEq, Prod.mk.injEq] at h
      rw [← h.2] at hr
      rcases List.mem_append.mp hr with hl | hr2
      · exact Or.inl hl
      · exact Or.inr ⟨offset, List.mem_singleton.mp hr2⟩
    · simp only [Option.some.injEq, Prod.mk.injEq] at h
      rw [← h.2] at hr
      rcases List.mem_append.mp hr with hl | hr2
      · exact Or.inl hl
      · exact Or.inr ⟨offset, List.mem_singleton.mp hr2⟩
    · rcases ih _ _ _ _ _ h r hr with hl | hoff
      · rcases List.mem_append.mp hl with hl2 | hr2
        · exact Or.inl hl2
        · exact Or.inr ⟨offset, List.mem_singleton.mp hr2⟩
      · exact Or.inr hoff

/-- Helper: every request the MessageFetcher pagination loop reports beyond
its initial trace is one the fetcher assembled itself, at limit 100. -/
theorem msg_fetchLoop_trace {α : Type} (f : MessageFetcher)
    (server : HttpServer α) :
    ∀ (fuel offset : ℕ) (records : List α) (reqs : List HttpRequest)
      (res : Except FetchException (List α)) (tr : List HttpRequest),
      f.fetchLoop server fuel offset records reqs = some (res, tr) →
      ∀ r ∈ tr, r ∈ reqs ∨ ∃ off, r = f.mkRequest 100 off := by
  intro fuel
  induction fuel with
  | zero =>
    intro offset records reqs res tr h
    exact absurd h (by simp [MessageFetcher.fetchLoop])
  | succ n ih =>
    intro offset records reqs res tr h r hr
    simp only [MessageFetcher.fetchLoop] at h
    split_ifs at h with hs hc
    · simp only [Option.some.injEq, Prod.mk.injEq] at h
      rw [← h.2] at hr
      rcases List.mem_append.mp hr with hl | hr2
      · exact Or.inl hl
      · exact Or.inr ⟨offset, List.mem_singleton.mp hr2⟩
    · simp only [Option.some.injEq, Prod.mk.injEq] at h
      rw [← h.2] at hr
      rcases List.mem_append.mp hr with hl | hr2
      · exact Or.inl hl
      · exact Or.inr ⟨offset, List.mem_singleton.mp hr2⟩
    · rcases ih _ _ _ _ _ h r hr with hl | hoff
      · rcases List.mem_append.mp hl with hl2 | hr2
        · exact Or.inl hl2
        · exact Or.inr ⟨offset, List.mem_singleton.mp hr2⟩
      · exact Or.inr hoff

/-- Helper: every request in the trace of a completed DeviceFetcher.fetch
was assembled by that fetcher, at limit 100. -/
theorem dev_fetch_trace {α : Type} (f : DeviceFetcher)
    (server : HttpServer α) (fuel : ℕ) (res : Except FetchException (List α))
    (tr : List HttpRequest) (h : f.fetch server fuel = some (res, tr)) :
    ∀ r ∈ tr, ∃ off, r = f.mkRequest 100 off := by
  intro r hr
  rcases dev_fetchLoop_trace f server fuel 0 [] [] res tr h r hr with hl | hoff
  · exact absurd hl (List.not_mem_nil r)
  · exact hoff

/-- Helper: every request in the trace of a completed MessageFetcher.fetch
was assembled by that fetcher, at limit 100. -/
theorem msg_fetch_trace {α : Type} (f : MessageFetcher)
    (server : HttpServer α) (fuel : ℕ) (res : Except FetchException (List α))
    (tr : List HttpRequest) (h : f.fetch server fuel = some (res, tr)) :
    ∀ r ∈ tr, ∃ off, r = f.mkRequest 100 off := by
  intro r hr
  rcases msg_fetchLoop_trace f server fuel 0 [] [] res tr h r hr with hl | hoff
  · exact absurd hl (List.not_mem_nil r)
  · exact hoff

/-- Helper: every message request buildSheets reports was assembled by the
MessageFetcher of one of the devices in the processed list, built from the
group_id, id and api_token of that device record. -/
theorem buildSheets_trace (mserver : HttpServer Message) (fuel : ℕ) :
    ∀ (ds : List Device)
      (res : Except (RunErr × List HttpRequest) (List Sheet × List HttpRequest)),
      buildSheets mserver fuel ds = some res →
      ∀ r ∈ exTrace res, ∃ d ∈ ds, ∃ off,
        r = MessageFetcher.mkRequest
          { group_id := d.group_id, device_id := d.id, api_token := d.api_token }
          100 off := by
  intro ds
  induction ds with
  | nil =>
    intro res h r hr
    simp only [buildSheets, Option.some.injEq] at h
    rw [← h] at hr
    simp [exTrace] at hr
  | cons d ds ih =>
    intro res h r hr
    simp only [buildSheets] at h
    split at h
    · exact absurd h (by simp)
    · rename_i tr heq
      simp only [Option.some.injEq] at h
      rw [← h] at hr
      simp only [exTrace] at hr
      obtain ⟨off, hoff⟩ := msg_fetch_trace _ mserver fuel _ tr heq r hr
      exact ⟨d, List.mem_cons_self d ds, off, hoff⟩
    · rename_i msgs tr heq
      split at h
      · simp only [Option.some.injEq] at h
        rw [← h] at hr
        simp only [exTrace] at hr
        obtain ⟨off, hoff⟩ := msg_fetch_trace _ mserver fuel _ tr heq r hr
        exact ⟨d, List.mem_cons_self d ds, off, hoff⟩
      · split at h
        · exact absurd h (by simp)
        · rename_i e tr2 heq2
          simp only [Option.some.injEq] at h
          rw [← h] at hr
          simp only [exTrace] at hr
          rcases List.mem_append.mp hr with hl | hr2
          · obtain ⟨off, hoff⟩ := msg_fetch_trace _ mserver fuel _ tr heq r hl
            exact ⟨d, List.mem_cons_self d ds, off, hoff⟩
          · obtain ⟨d2, hd2, off, hoff⟩ := ih _ heq2 r (by simpa [exTrace] using hr2)
            exact ⟨d2, List.mem_cons_of_mem d hd2, off, hoff⟩
        · rename_i sheets tr2 heq2
          simp only [Option.some.injEq] at h
          rw [← h] at hr
          simp only [exTrace] at hr
          rcases List.mem_append.mp hr with hl | hr2
          · obtain ⟨off, hoff⟩ := msg_fetch_trace _ mserver fuel _ tr heq r hl
            exact ⟨d, List.mem_cons_self d ds, off, hoff⟩
          · obtain ⟨d2, hd2, off, hoff⟩ := ih _ heq2 r (by simpa [exTrace] using hr2)
            exact ⟨d2, List.mem_cons_of_mem d hd2, off, hoff⟩

/-! ## Claims about the orchestrator and the process -/

/-- Helper: when the device fetch succeeds, the request list of a completed
run of main is the device-fetch trace followed by the buildSheets trace. -/
theorem main_run_requests (dserver : HttpServer Device)
    (mserver : HttpServer Message) (gid token : String) (fuel : ℕ)
    (devices : List Device) (dtr : List HttpRequest) (o : RunOutcome)
    (hdev : DeviceFetcher.fetch { group_id := gid, api_token := token } dserver fuel
      = some (Except.ok devices, dtr))
    (h : main_run dserver mserver gid token fuel = some o) :
    ∃ bres, buildSheets mserver fuel devices = some bres ∧
      o.requests = dtr ++ exTrace bres := by
  unfold main_run at h
  rw [hdev] at h
  dsimp only at h
  cases hbs : buildSheets mserver fuel devices with
  | none =>
    rw [hbs] at h
    exact absurd h (by simp)
  | some bres =>
    refine ⟨bres, rfl, ?_⟩
    rcases bres with ⟨e, mtr⟩ | ⟨sheets, mtr⟩
    · rw [hbs] at h
      dsimp only at h
      simp only [Option.some.injEq] at h
      rw [← h]
      rfl
    · rw [hbs] at h
      dsimp only at h
      simp only [Option.some.injEq] at h
      rw [← h]
      rfl

/-- C9: for every device in the fetched device list, the per-device message
requests are issued with the group_id and api_token fields taken from that
device record in the API response (and that device id), not the group
identifier and bearer token supplied on the command line; every request of
the device-list fetch, and only that fetch, carries the command-line
group identifier and bearer token. -/
theorem C9_device_credentials (dserver : HttpServer Device)
    (mserver : HttpServer Message) (gid token : String) (fuel : ℕ)
    (devices : List Device) (dtr : List HttpRequest) (o : RunOutcome)
    (hdev : DeviceFetcher.fetch { group_id := gid, api_token := token } dserver fuel
      = some (Except.ok devices, dtr))
    (h : main_run dserver mserver gid token fuel = some o) :
    (∀ r ∈ dtr, r.url = devices_url ∧ r.bearer = "Bearer " ++ token ∧
      r.group_id = some gid ∧ r.device_id = none) ∧
    (∀ r ∈ o.requests, r.url = messages_url →
      ∃ d ∈ devices, r.bearer = "Bearer " ++ d.api_token ∧
        r.group_id = some d.group_id ∧ r.device_id = some d.id) := by
  have hdtr : ∀ r ∈ dtr, r.url = devices_url ∧ r.bearer = "Bearer " ++ token ∧
      r.group_id = some gid ∧ r.device_id = none := by
    intro r hr
    obtain ⟨off, rfl⟩ := dev_fetch_trace _ dserver fuel _ dtr hdev r hr
    exact ⟨rfl, rfl, rfl, rfl⟩
  refine ⟨hdtr, ?_⟩
  have hurls : ¬ devices_url = messages_url := by decide
  intro r hr hurl
  obtain ⟨bres, hbs, hreq⟩ :=
    main_run_requests dserver mserver gid token fuel devices dtr o hdev h
  rw [hreq] at hr
  rcases List.mem_append.mp hr with hl | hr2
  · exact absurd ((hdtr r hl).1.symm.trans hurl) hurls
  · obtain ⟨d, hd, off, rfl⟩ := buildSheets_trace mserver fuel devices bres hbs r hr2
    exact ⟨d, hd, rfl, rfl, rfl⟩

/-- Device record served by the C9 witness device endpoint, with its own
group_id and api_token differing from the command-line values. -/
def c9_dA : Device :=
  { id := "dev-A", name := "A", group_id := "gA", api_token := "tokA" }

/-- Mock device endpoint serving exactly the one device record. -/
def c9_dserver : HttpServer Device := fun _ => { status := 200, body := [c9_dA] }

/-- Mock message endpoint serving no messages. -/
def c9_mserver : HttpServer Message := fun _ => { status := 200, body := [] }

/-- The device-list request of the C9 witness run. -/
def c9_dreq : HttpRequest :=
  DeviceFetcher.mkRequest { group_id := "cli-group", api_token := "cli-token" } 100 0

/-- The message request of the C9 witness run, carrying the credentials of
the device record rather than the command-line ones. -/
def c9_mreq : HttpRequest :=
  MessageFetcher.mkRequest
    { group_id := "gA", device_id := "dev-A", api_token := "tokA" } 100 0

/-- The outcome of the C9 witness run. -/
def c9_outcome : RunOutcome :=
  { output_file := some [{ name := "dev-A", rows := [] }],
    writer_invoked := true, requests := [c9_dreq, c9_mreq], err := none }

/-- Witness for C9: in a concrete run with command-line group cli-group and
token cli-token against a device whose record carries gA and tokA, the
device-list request uses the command-line credentials. -/
theorem C9_device_credentials_witness :
    c9_dreq.url = devices_url ∧ c9_dreq.bearer = "Bearer " ++ "cli-token" ∧
      c9_dreq.group_id = some "cli-group" ∧ c9_dreq.device_id = none := by
  have h := C9_device_credentials c9_dserver c9_mserver "cli-group" "cli-token" 3
    [c9_dA] [c9_dreq] c9_outcome (by with_unfolding_all rfl) (by with_unfolding_all rfl)
  exact h.1 c9_dreq (by simp)

/-- Helper: the sheet names produced by buildSheets are exactly the device
ids sliced to 30 characters, in device order. -/
theorem buildSheets_names (mserver : HttpServer Message) (fuel : ℕ) :
    ∀ (ds : List Device) (sheets : List Sheet) (tr : List HttpRequest),
      buildSheets mserver fuel ds = some (Except.ok (sheets, tr)) →
      sheets.map Sheet.name = ds.map (fun d => pyslice d.id 30) := by
  intro ds
  induction ds with
  | nil =>
    intro sheets tr h
    simp only [buildSheets, Option.some.injEq, Except.ok.injEq, Prod.mk.injEq] at h
    rw [← h.1]
    rfl
  | cons d ds ih =>
    intro sheets tr h
    simp only [buildSheets] at h
    split at h
    · exact absurd h (by simp)
    · exact absurd h (by simp)
    · split at h
      · exact absurd h (by simp)
      · split at h
        · exact absurd h (by simp)
        · exact absurd h (by simp)
        · rename_i sheets2 tr2 heq2
          simp only [Option.some.injEq, Except.ok.injEq, Prod.mk.injEq] at h
          rw [← h.1, List.map_cons, List.map_cons, ih _ _ heq2]

/-- C7: for every device, the sheet name is the device id sliced to its
first 30 characters, even if this produces duplicate or empty names and
with no de-duplication; and a string of 30 characters or fewer is left
unchanged by that slice. -/
theorem C7_sheet_names :
    (∀ (mserver : HttpServer Message) (fuel : ℕ) (ds : List Device)
        (sheets : List Sheet) (tr : List HttpRequest),
        buildSheets mserver fuel ds = some (Except.ok (sheets, tr)) →
        sheets.map Sheet.name = ds.map (fun d => pyslice d.id 30)) ∧
    (∀ s : String, s.toList.length ≤ 30 → pyslice s 30 = s) := by
  constructor
  · intro mserver fuel ds sheets tr h
    exact buildSheets_names mserver fuel ds sheets tr h
  · intro s h
    cases s with
    | mk data => exact congrArg String.mk (List.take_of_length_le h)

/-- First device of the C7 witness: an id of 34 characters. -/
def c7_d1 : Device :=
  { id := "abcdefghijklmnopqrstuvwxyz0123-ONE", name := "n1",
    group_id := "g7", api_token := "t7" }

/-- Second device of the C7 witness: a different 34-character id sharing the
first 30 characters with the first one. -/
def c7_d2 : Device :=
  { id := "abcdefghijklmnopqrstuvwxyz0123-TWO", name := "n2",
    group_id := "g7", api_token := "t7" }

/-- Mock message endpoint for the C7 witness, serving no messages. -/
def c7_mserver : HttpServer Message := fun _ => { status := 200, body := [] }

/-- Witness for C7: the two 34-character ids produce the same truncated
30-character sheet name, kept as a duplicate, and a short id is used
unchanged. -/
theorem C7_sheet_names_witness :
    ([{ name := "abcdefghijklmnopqrstuvwxyz0123", rows := ([] : List Measurement) },
      { name := "abcdefghijklmnopqrstuvwxyz0123", rows := [] }] : List Sheet).map
        Sheet.name = [c7_d1, c7_d2].map (fun d => pyslice d.id 30) ∧
    pyslice "short-id" 30 = "short-id" := by
  constructor
  · exact (C7_sheet_names.1 c7_mserver 2 [c7_d1, c7_d2]
      [{ name := "abcdefghijklmnopqrstuvwxyz0123", rows := [] },
       { name := "abcdefghijklmnopqrstuvwxyz0123", rows := [] }]
      [MessageFetcher.mkRequest
          { group_id := "g7", device_id := c7_d1.id, api_token := "t7" } 100 0,
       MessageFetcher.mkRequest
          { group_id := "g7", device_id := c7_d2.id, api_token := "t7" } 100 0]
      (by with_unfolding_all rfl))
  · exact C7_sheet_names.2 "short-id" (by decide)

/-- Device A of the C6 scenario. -/
def c6_dA : Device :=
  { id := "device-A", name := "A", group_id := "gA", api_token := "tA" }

/-- Device B of the C6 scenario. -/
def c6_dB : Device :=
  { id := "device-B", name := "B", group_id := "gB", api_token := "tB" }

/-- First message of device A: valid, with a thermometer temperature. -/
def c6_m1 : Message :=
  { label := some "m1", created_at := some "2024-01-02T03:04:05Z",
    data := some {
      battery := some { voltage1 := some (33/10), voltage2 := some 3 },
      sensor := some { thermometer := some { temperature := some (2127/100) },
                       hygrometer := none } } }

/-- Second message of device A: battery missing, dropped by the extractor. -/
def c6_m2 : Message :=
  { label := some "m2", created_at := some "2024-01-02T03:04:06Z",
    data := some { battery := none, sensor := none } }

/-- Third message of device A: valid, without a sensor object. -/
def c6_m3 : Message :=
  { label := some "m3", created_at := some "2024-01-02T03:04:07Z",
    data := some {
      battery := some { voltage1 := some (5/2), voltage2 := some (5/4) },
      sensor := none } }

/-- Mock device endpoint of the C6 scenario: one page with devices A and B. -/
def c6_dserver : HttpServer Device := fun _ => { status := 200, body := [c6_dA, c6_dB] }

/-- Mock message endpoint of the C6 scenario: three messages for device A,
none for device B. -/
def c6_mserver : HttpServer Message := fun req =>
  { status := 200,
    body := if req.device_id = some "device-A" then [c6_m1, c6_m2, c6_m3] else [] }

/-- Measurement extracted from the first message of device A. -/
def c6_meas1 : Measurement :=
  { label := "m1", date := "2024-01-02 03:04:05", t1 := some (213/10), t2 := none,
    v1 := 33/10, v2 := 3, r := 39/10 }

/-- Measurement extracted from the third message of device A. -/
def c6_meas3 : Measurement :=
  { label := "m3", date := "2024-01-02 03:04:07", t1 := none, t2 := none,
    v1 := 5/2, v2 := 5/4, r := 39 }

/-- The complete outcome of the C6 scenario run. -/
def c6_outcome : RunOutcome :=
  { output_file := some [{ name := "device-A", rows := [c6_meas1, c6_meas3] },
                         { name := "device-B", rows := [] }],
    writer_invoked := true,
    requests := [DeviceFetcher.mkRequest { group_id := "g", api_token := "t" } 100 0,
      MessageFetcher.mkRequest
        { group_id := "gA", device_id := "device-A", api_token := "tA" } 100 0,
      MessageFetcher.mkRequest
        { group_id := "gB", device_id := "device-B", api_token := "tB" } 100 0],
    err := none }

/-- C6: the orchestrator produces exactly one sheet per fetched device, in
device-fetch order, whose rows are exactly the non-absent extraction
results of the messages of that device in message order; in the concrete
scenario with device A holding 3 messages (2 valid, 1 missing battery) and
device B holding none, the output has 2 sheets, sheet A has exactly the 2
extracted rows in message order and sheet B has 0 rows. -/
theorem C6_sheets_per_device :
    (∀ (mserver : HttpServer Message) (fuel : ℕ) (ds : List Device)
        (sheets : List Sheet) (tr : List HttpRequest),
        buildSheets mserver fuel ds = some (Except.ok (sheets, tr)) →
        sheets.length = ds.length) ∧
    main_run c6_dserver c6_mserver "g" "t" 5 = some c6_outcome := by
  constructor
  · intro mserver fuel ds sheets tr h
    have hnames := buildSheets_names mserver fuel ds sheets tr h
    calc sheets.length = (sheets.map Sheet.name).length := by rw [List.length_map]
      _ = (ds.map fun d => pyslice d.id 30).length := by rw [hnames]
      _ = ds.length := by rw [List.length_map]
  · with_unfolding_all rfl

/-- Witness for C6: the general per-device sheet count at the concrete
scenario gives 2 sheets for the 2 devices. -/
theorem C6_sheets_per_device_witness :
    ([{ name := "device-A", rows := [c6_meas1, c6_meas3] },
      { name := "device-B", rows := [] }] : List Sheet).length =
      [c6_dA, c6_dB].length := by
  exact C6_sheets_per_device.1 c6_mserver 5 [c6_dA, c6_dB] _
    [MessageFetcher.mkRequest
        { group_id := "gA", device_id := "device-A", api_token := "tA" } 100 0,
     MessageFetcher.mkRequest
        { group_id := "gB", device_id := "device-B", api_token := "tB" } 100 0]
    (by with_unfolding_all rfl)

/-- Mock device endpoint answering HTTP 500, for the C5 counterexample. -/
def c5_dserver500 : HttpServer Device := fun _ => { status := 500, body := [] }

/-- Mock message endpoint (never reached) for the C5 counterexample. -/
def c5_mserver : HttpServer Message := fun _ => { status := 200, body := [] }

/-- C5 counterexample: on a fetch failure (device endpoint answering 500)
the process does print the one fixed message to standard error, but its
exit code is 0, not non-zero: the top-level handler prints the message and
then falls off the end of the script, and sys.exit is never called. -/
theorem C5_counterexample :
    processRun c5_dserver500 c5_mserver "g5" "t5" 1 =
      some { stderr_lines := [failure_message], exit_code := 0 } := by
  with_unfolding_all rfl

/-- C5 (amended): on a fetch failure the process prints exactly one fixed
human-readable message to standard error and exits with code 0; the
failure is not reflected in the exit status. -/
theorem C5_amended_exit_zero (dserver : HttpServer Device)
    (mserver : HttpServer Message) (gid token : String) (fuel : ℕ)
    (o : RunOutcome) (h : main_run dserver mserver gid token fuel = some o)
    (he : o.err = some RunErr.fetch) :
    processRun dserver mserver gid token fuel =
      some { stderr_lines := [failure_message], exit_code := 0 } := by
  simp [processRun, h, main_guard, he]

/-- Device served in the C5 witness run. -/
def c5w_device : Device :=
  { id := "d5", name := "n5", group_id := "g5", api_token := "t5" }

/-- Mock device endpoint serving one device, for the C5 witness. -/
def c5w_dserver : HttpServer Device := fun _ => { status := 200, body := [c5w_device] }

/-- Mock message endpoint answering HTTP 404, for the C5 witness. -/
def c5w_mserver404 : HttpServer Message := fun _ => { status := 404, body := [] }

/-- The outcome of the C5 witness run: the message fetch of the one device
fails, so the run aborts with the fetch error. -/
def c5w_outcome : RunOutcome :=
  { output_file := none, writer_invoked := false,
    requests := [DeviceFetcher.mkRequest { group_id := "cg", api_token := "ct" } 100 0,
      MessageFetcher.mkRequest
        { group_id := "g5", device_id := "d5", api_token := "t5" } 100 0],
    err := some RunErr.fetch }

/-- Witness for the amended C5: a run whose message fetch receives HTTP 404
prints the fixed message and exits 0. -/
theorem C5_amended_exit_zero_witness :
    processRun c5w_dserver c5w_mserver404 "cg" "ct" 2 =
      some { stderr_lines := [failure_message], exit_code := 0 } :=
  C5_amended_exit_zero c5w_dserver c5w_mserver404 "cg" "ct" 2 c5w_outcome
    (by with_unfolding_all rfl) rfl
